import Mathlib

/-
  Shallow embedding of the medical-microscopy frontend client
  (src/frontend/src/App.jsx, src/frontend/src/api/client.js,
   src/frontend/src/components/ResultsGrid.jsx, DropZone, FilterBar).

  Conventions:
  * JavaScript objects with fixed keys become structures; a possibly
    undefined field becomes Option.
  * JavaScript string truthiness (undefined and the empty string are
    falsy) is modelled by jsTruthyStr.
  * Asynchronous handlers are split into their synchronous start part
    and the continuation run when the awaited promise settles; the
    outcome of a network call is an explicit parameter.
  * Network and console activity is recorded as an explicit list of
    Effect values returned next to the new state.
-/

namespace MedMicro

/-- JavaScript truthiness of a possibly-undefined string value:
undefined and the empty string are falsy. -/
def jsTruthyStr : Option String → Bool
  | none => false
  | some s => !(s == "")

/-- The expression `x || null` on a possibly-undefined string. -/
def jsOrNull (o : Option String) : Option String :=
  if jsTruthyStr o then o else none

/-- JavaScript String.prototype.trim: drop whitespace from both ends
(written out over the character list so that it reduces inside the
kernel). -/
def jsTrim (s : String) : String :=
  String.mk
    (((s.data.dropWhile Char.isWhitespace).reverse.dropWhile
        Char.isWhitespace).reverse)

/-- Metadata object of one result (the `image` field of a result item). -/
structure ImageMeta where
  id : String
  diagnosis : Option String
  tissue_type : Option String
  benign_malignant : Option String
deriving DecidableEq

/-- One entry of SearchResponse.results as consumed by ResultsGrid.jsx. -/
structure ResultItem where
  image : ImageMeta
  image_url : String
deriving DecidableEq

/-- Body of a successful search response as consumed by App.jsx. -/
structure SearchResponse where
  results : List ResultItem
  result_count : Nat
deriving DecidableEq

/-- Health endpoint response body; StatusBar reads only `status`. -/
structure HealthStatus where
  status : String
deriving DecidableEq

/-- The `filters` object of App.jsx: three possibly-undefined string
fields (FilterBar writes `undefined` to clear a field). -/
structure FilterSet where
  diagnosis : Option String
  tissue_type : Option String
  benign_malignant : Option String
deriving DecidableEq

/-- A browser File: only `type` (the MIME type) is inspected by the code. -/
structure File where
  name : String
  type : String
deriving DecidableEq

/-- JSON body of POST /feedback, built in client.js submitFeedback. -/
structure FeedbackBody where
  query_image_id : Option String
  result_image_id : String
  vote : Int
deriving DecidableEq

/-- Observable effect emitted by a handler. -/
inductive Effect where
  | netSearchImage (file : File) (filters : FilterSet)
  | netSearchText (query : String) (filters : FilterSet)
  | netFeedback (body : FeedbackBody)
  | consoleError (msg : String)
  | alertMsg (msg : String)
deriving DecidableEq

def isFeedbackCall : Effect → Bool
  | .netFeedback _ => true
  | _ => false

def isNetworkEffect : Effect → Bool
  | .netSearchImage _ _ => true
  | .netSearchText _ _ => true
  | .netFeedback _ => true
  | _ => false

/-- Number of feedback network calls in an effect list. -/
def countFeedback (effs : List Effect) : Nat :=
  (effs.filter isFeedbackCall).length

/- ---------------------------------------------------------------
   api/client.js
   --------------------------------------------------------------- -/

/-- Query parameters built by searchSimilar (client.js lines 9-15):
a filter entry is added only when its value is truthy, i.e. present
and nonempty. -/
def searchSimilarParams (filters : FilterSet) : List (String × String) :=
  (if jsTruthyStr filters.diagnosis then
    [("diagnosis", filters.diagnosis.getD "")] else [])
  ++ (if jsTruthyStr filters.tissue_type then
    [("tissue_type", filters.tissue_type.getD "")] else [])
  ++ (if jsTruthyStr filters.benign_malignant then
    [("benign_malignant", filters.benign_malignant.getD "")] else [])

/-- JSON body built by searchByText (client.js lines 41-44); a filter
field is included only when truthy. -/
structure TextSearchBody where
  query : String
  diagnosis : Option String
  tissue_type : Option String
  benign_malignant : Option String
deriving DecidableEq

def searchByTextBody (query : String) (filters : FilterSet) : TextSearchBody :=
  { query := query
    diagnosis := if jsTruthyStr filters.diagnosis then filters.diagnosis else none
    tissue_type := if jsTruthyStr filters.tissue_type then filters.tissue_type else none
    benign_malignant := if jsTruthyStr filters.benign_malignant then filters.benign_malignant else none }

/-- Outcome of the underlying `fetch` of the health endpoint:
either the promise rejects (network error), or an HTTP response with
an `ok` flag, a status code and a body that may fail to parse. -/
inductive FetchOutcome where
  | netError (msg : String)
  | response (ok : Bool) (status : Nat) (body : Option HealthStatus)
deriving DecidableEq

/-- checkHealth (client.js lines 90-94): rethrows a fetch rejection,
throws on a non-ok status, otherwise returns the parsed body
(a parse failure also rejects). Throwing is modelled as Except.error. -/
def checkHealth : FetchOutcome → Except String HealthStatus
  | .netError m => .error m
  | .response ok status body =>
    if ok then
      match body with
      | some h => .ok h
      | none => .error "invalid JSON body"
    else .error ("Health check failed: " ++ toString status)

/-- Whether the health request failed (rejected fetch, non-ok status,
or unparseable body). -/
def FetchOutcome.failing : FetchOutcome → Bool
  | .netError _ => true
  | .response ok _ body => !ok || body.isNone

/-- The health effect of App.jsx lines 21-25:
checkHealth().then(setHealth).catch(() => setHealth(unreachable)). -/
def healthOnMount (fr : FetchOutcome) : HealthStatus :=
  match checkHealth fr with
  | .ok h => h
  | .error _ => { status := "unreachable" }

/- ---------------------------------------------------------------
   components/DropZone.jsx
   --------------------------------------------------------------- -/

def ACCEPTED_TYPES : List String := ["image/jpeg", "image/png", "image/tiff"]

/-- What DropZone.handleFile does with a (possibly missing) file. -/
inductive FileAction where
  | ignored
  | rejected (alertText : String)
  | search (f : File)
deriving DecidableEq

/-- DropZone.handleFile (DropZone.jsx lines 10-27): a missing file is
ignored; a file whose MIME type is not accepted raises an alert and is
not searched; otherwise onFileDrop (= App.handleSearch) is invoked. -/
def handleFile : Option File → FileAction
  | none => .ignored
  | some f =>
    if ACCEPTED_TYPES.contains f.type then .search f
    else .rejected "Please use a JPEG, PNG, or TIFF image."

/- ---------------------------------------------------------------
   components/ResultsGrid.jsx
   --------------------------------------------------------------- -/

/-- The `votes` component state: a JavaScript object used as a map from
result image id to the last stored vote (1 or -1). Object spread update
is modelled as function update. -/
def VoteMap : Type := String → Option Int

def emptyVotes : VoteMap := fun _ => none

/-- The update setVotes(prev => ({...prev, [id]: vote})). -/
def setVote (votes : VoteMap) (id : String) (v : Int) : VoteMap :=
  fun k => if k = id then some v else votes k

/-- ResultsGrid.handleVote (ResultsGrid.jsx lines 15-25).
`netOk` is the outcome of the awaited submitFeedback call. If the
stored vote already equals the requested one the handler returns with
no network call; otherwise submitFeedback is called with
`queryImageId || null`; on success the vote is stored, on failure the
rejection is caught and only logged to the console. -/
def handleVote (votes : VoteMap) (queryImageId : Option String)
    (resultImageId : String) (vote : Int) (netOk : Bool) :
    VoteMap × List Effect :=
  if votes resultImageId = some vote then (votes, [])
  else
    let body : FeedbackBody :=
      { query_image_id := jsOrNull queryImageId
        result_image_id := resultImageId
        vote := vote }
    if netOk then
      (setVote votes resultImageId vote, [.netFeedback body])
    else
      (votes, [.netFeedback body,
               .consoleError "Failed to submit feedback:"])

/-- Sequentially process a list of vote requests
(resultImageId, direction, network outcome), counting feedback calls. -/
def runVotes (votes : VoteMap) (qid : Option String) :
    List (String × Int × Bool) → VoteMap × Nat
  | [] => (votes, 0)
  | (id, dir, ok) :: rest =>
    let step := handleVote votes qid id dir ok
    let tail := runVotes step.1 qid rest
    (tail.1, countFeedback step.2 + tail.2)

/-- Visual content of one result card that depends on claims:
rank, image, diagnosis line, classification badge, and the
active-state of the two vote buttons (ResultsGrid.jsx lines 29-83). -/
structure CardView where
  rank : Nat
  image_url : String
  diagnosisLine : Option String
  badge : Option String
  upActive : Bool
  downActive : Bool
deriving DecidableEq

inductive GridView where
  | noResults
  | grid (cards : List CardView)
deriving DecidableEq

def renderCard (votes : VoteMap) (idx : Nat) (r : ResultItem) : CardView :=
  { rank := idx + 1
    image_url := r.image_url
    diagnosisLine := if jsTruthyStr r.image.diagnosis then r.image.diagnosis else none
    badge := if jsTruthyStr r.image.benign_malignant then r.image.benign_malignant else none
    upActive := votes r.image.id = some 1
    downActive := votes r.image.id = some (-1) }

/-- ResultsGrid render as a function of its props and vote state:
missing or empty results give the no-results message, otherwise the
list of cards in order. -/
def renderGrid (results : Option (List ResultItem)) (votes : VoteMap) : GridView :=
  match results with
  | none => .noResults
  | some [] => .noResults
  | some rs => .grid (rs.enum.map fun p => renderCard votes p.1 p.2)

/- ---------------------------------------------------------------
   App.jsx: the search orchestration component
   --------------------------------------------------------------- -/

/-- The `state` variable of App.jsx line 10. -/
inductive Phase where
  | idle
  | searching
  | results
  | detail
deriving DecidableEq

/-- Local state of a mounted ResultsGrid instance. -/
structure GridState where
  votes : VoteMap

/-- The state variables of App.jsx lines 10-18 plus the local state of
the ResultsGrid child (which exists only while the grid is rendered;
see gridMounted). filterOptions is omitted: it only gates whether the
FilterBar is shown, which widens the possible event traces. -/
structure AppState where
  phase : Phase
  results : Option SearchResponse
  selectedResult : Option ResultItem
  filters : FilterSet
  health : Option HealthStatus
  error : Option String
  queryFile : Option File
  textQuery : String
  grid : Option GridState

def noFilters : FilterSet := ⟨none, none, none⟩

def initState : AppState :=
  { phase := .idle, results := none, selectedResult := none
    filters := noFilters, health := none, error := none
    queryFile := none, textQuery := "", grid := none }

/-- ResultsGrid is rendered precisely when
`(state === "results" || state === "detail") && results` holds together
with the inner `state === "results"` condition (App.jsx lines 154-169). -/
def gridMounted (st : AppState) : Prop :=
  st.phase = Phase.results ∧ st.results.isSome

instance (st : AppState) : Decidable (gridMounted st) :=
  inferInstanceAs (Decidable (_ ∧ _))

/-- App.jsx lines 164-168 render ResultsGrid without a queryImageId
prop, so inside the grid that prop is undefined. -/
def appGridQueryImageId : Option String := none

/-- External events the component can process. A resolve event is the
continuation of an earlier search request settling; it may concern any
request still in flight (the model does not track the pending set, so
the event space over-approximates the reachable traces). -/
inductive Event where
  | dropFile (f : Option File)
  | setTextQuery (s : String)
  | submitTextForm
  | resolveOk (r : SearchResponse)
  | resolveErr (msg : String)
  | selectResult (item : ResultItem)
  | back
  | newSearch
  | filterChange (newFilters : FilterSet)
  | vote (resultImageId : String) (dir : Int) (netOk : Bool)
  | healthResolved (fr : FetchOutcome)
  | dismissError

/-- Synchronous part of App.handleSearch (App.jsx lines 34-51 before
the await). `capturedFilters` is the filters value closed over by the
invoked handleSearch callback: it is the value of the render that
created the callback, which is the pre-event state. -/
def handleSearchStart (st : AppState) (f : File)
    (capturedFilters : FilterSet) : AppState × List Effect :=
  ({ st with queryFile := some f, phase := .searching
             error := none, results := none },
   [.netSearchImage f capturedFilters])

/-- App.handleFilterChange (App.jsx lines 92-101):
setFilters(newFilters); if (queryFile) handleSearch(queryFile).
The handleSearch invoked here is the callback of the current render,
whose closure captured the pre-change filters value st.filters, so the
re-issued request carries st.filters and not newFilters. -/
def handleFilterChange (st : AppState) (newFilters : FilterSet) :
    AppState × List Effect :=
  let st1 := { st with filters := newFilters }
  match st.queryFile with
  | some f => handleSearchStart st1 f st.filters
  | none => (st1, [])

/-- Handler dispatch. Each guard records which rendered control exposes
the handler: DropZone and the text form exist only in the idle phase
(App.jsx lines 122-145), result cards only while the grid is rendered,
the back button only in the detail phase, the New Search button only
outside idle (line 107), the FilterBar only in the results or detail
phase (lines 154-162). -/
def applyHandlers (st : AppState) : Event → AppState × List Effect
  | .dropFile f =>
    if st.phase = Phase.idle then
      match handleFile f with
      | .ignored => (st, [])
      | .rejected msg => (st, [.alertMsg msg])
      | .search file => handleSearchStart st file st.filters
    else (st, [])
  | .setTextQuery s =>
    if st.phase = Phase.idle then ({ st with textQuery := s }, []) else (st, [])
  | .submitTextForm =>
    if st.phase = Phase.idle ∧ jsTrim st.textQuery ≠ "" then
      ({ st with phase := .searching, error := none
                 results := none, queryFile := none },
       [.netSearchText (jsTrim st.textQuery) st.filters])
    else (st, [])
  | .resolveOk r => ({ st with results := some r, phase := .results }, [])
  | .resolveErr m => ({ st with error := some m, phase := .idle }, [])
  | .selectResult item =>
    if gridMounted st then
      ({ st with selectedResult := some item, phase := .detail }, [])
    else (st, [])
  | .back =>
    if st.phase = Phase.detail then
      ({ st with selectedResult := none, phase := .results }, [])
    else (st, [])
  | .newSearch =>
    if st.phase = Phase.idle then (st, [])
    else
      ({ st with phase := .idle, results := none, selectedResult := none
                 queryFile := none, textQuery := "" }, [])
  | .filterChange nf =>
    if st.phase = Phase.results ∨ st.phase = Phase.detail then
      handleFilterChange st nf
    else (st, [])
  | .vote id dir ok =>
    match st.grid with
    | some g =>
      if gridMounted st then
        let step := handleVote g.votes appGridQueryImageId id dir ok
        ({ st with grid := some ⟨step.1⟩ }, step.2)
      else (st, [])
    | none => (st, [])
  | .healthResolved fr => ({ st with health := some (healthOnMount fr) }, [])
  | .dismissError => ({ st with error := none }, [])

/-- React reconciliation of the conditionally rendered ResultsGrid:
when the grid stops being rendered its local state is destroyed; when
it starts being rendered a fresh instance mounts with empty votes;
while it stays rendered its state survives prop changes. -/
def reconcileGrid (oldSt newSt : AppState) : AppState :=
  if gridMounted newSt then
    if gridMounted oldSt then newSt
    else { newSt with grid := some ⟨emptyVotes⟩ }
  else { newSt with grid := none }

def applyEvent (st : AppState) (e : Event) : AppState × List Effect :=
  let step := applyHandlers st e
  (reconcileGrid st step.1, step.2)

def stepState (st : AppState) (e : Event) : AppState := (applyEvent st e).1

def stateFrom (st : AppState) (es : List Event) : AppState :=
  es.foldl stepState st

def stateAfter (es : List Event) : AppState := stateFrom initState es

/-- Vote stored for a given result image id in the mounted grid, if any. -/
def gridVotesAt (st : AppState) (id : String) : Option Int :=
  match st.grid with
  | some g => g.votes id
  | none => none

/- ---------------------------------------------------------------
   Concrete fixtures
   --------------------------------------------------------------- -/

def itemA : ResultItem :=
  ⟨⟨"imgA", some "melanoma", some "skin", some "malignant"⟩, "urlA"⟩

def itemB : ResultItem :=
  ⟨⟨"imgB", none, none, some "benign"⟩, "urlB"⟩

def respA : SearchResponse := ⟨[itemA], 1⟩

def respB : SearchResponse := ⟨[itemB], 1⟩

def fileA : File := ⟨"a.jpg", "image/jpeg"⟩

def fileB : File := ⟨"b.png", "image/png"⟩

def pdfFile : File := ⟨"doc.pdf", "application/pdf"⟩

/- ---------------------------------------------------------------
   Helper lemmas
   --------------------------------------------------------------- -/

theorem reconcileGrid_eq (a b : AppState) :
    ∃ g, reconcileGrid a b = { b with grid := g } := by
  unfold reconcileGrid
  split
  · split
    · exact ⟨b.grid, rfl⟩
    · exact ⟨some ⟨emptyVotes⟩, rfl⟩
  · exact ⟨none, rfl⟩

theorem reconcileGrid_results (a b : AppState) :
    (reconcileGrid a b).results = b.results := by
  obtain ⟨g, hg⟩ := reconcileGrid_eq a b
  rw [hg]

theorem reconcileGrid_phase (a b : AppState) :
    (reconcileGrid a b).phase = b.phase := by
  obtain ⟨g, hg⟩ := reconcileGrid_eq a b
  rw [hg]

theorem stateAfter_append_single (es : List Event) (e : Event) :
    stateAfter (es ++ [e]) = stepState (stateAfter es) e := by
  simp [stateAfter, stateFrom, List.foldl_append]

/- ---------------------------------------------------------------
   C1: query supersession
   --------------------------------------------------------------- -/

/-- Query A submitted, superseded via New Search by query B, and the
responses arrive out of submission order (B first, then the stale A). -/
def raceTrace : List Event :=
  [.dropFile (some fileA), .newSearch, .dropFile (some fileB),
   .resolveOk respB, .resolveOk respA]

/-- C1 counterexample. The claim states that after all responses
settle the displayed result set equals the response of the
most-recently-submitted query (here query B with response respB) and
that a superseded response never overwrites displayed state. In the
code there is no request token at all: each resolving search
continuation unconditionally runs setResults and setState("results")
(App.jsx lines 42-44), so on this trace the stale response respA of
the superseded query A, arriving last, overwrites respB and is what
is displayed. -/
theorem c1_counterexample :
    (stateAfter raceTrace).phase = Phase.results ∧
    (stateAfter raceTrace).results = some respA ∧
    respA ≠ respB := by
  refine ⟨by decide, by decide, by decide⟩

/-- C1 amended claim: after all responses settle, the displayed result
set equals the response that resolved last (last-arrival-wins), not
the one submitted last; no response is ever discarded. Formally, any
event trace ending in a successful resolution with response r leaves
the component displaying exactly r. -/
theorem c1_last_arrival_wins (es : List Event) (r : SearchResponse) :
    (stateAfter (es ++ [Event.resolveOk r])).results = some r ∧
    (stateAfter (es ++ [Event.resolveOk r])).phase = Phase.results := by
  rw [stateAfter_append_single]
  unfold stepState applyEvent applyHandlers
  exact ⟨by rw [reconcileGrid_results], by rw [reconcileGrid_phase]⟩

/- ---------------------------------------------------------------
   C7: vote ledger across the session
   --------------------------------------------------------------- -/

/-- Image search resolves, then the user votes up on result imgA. -/
def c7trace : List Event :=
  [.dropFile (some fileA), .resolveOk respA, .vote "imgA" 1 true]

/-- C7 counterexample. The claim states that once a vote direction is
stored for an item, every subsequent ledger state in the session holds
some direction. But the votes map is local useState of ResultsGrid,
which App renders only while state === "results" (App.jsx line 164):
selecting a result unmounts the grid and destroys the map, and coming
back mounts a fresh instance with an empty map. After voting up on
imgA, viewing its detail and going back, the stored entry for imgA is
gone. -/
theorem c7_counterexample :
    gridVotesAt (stateAfter c7trace) "imgA" = some 1 ∧
    gridVotesAt (stateAfter (c7trace ++ [.selectResult itemA, .back])) "imgA"
      = none := by
  refine ⟨by decide, by decide⟩

/-- C7 amended claim: within one continuous mount of the results grid
the ledger is monotone — handleVote only adds or overwrites entries,
so an item that holds a direction keeps holding some direction — but
the ledger does not survive a remount: unmounting the grid (viewing a
result detail) and remounting it (going back) resets the ledger to
empty, so across the session an entry does revert to none. -/
theorem c7_ledger_per_mount (votes : VoteMap) (qid : Option String)
    (id rid : String) (dir d0 : Int) (ok : Bool)
    (st : AppState) (item : ResultItem)
    (hstored : votes rid = some d0) (hm : gridMounted st) :
    (∃ d1, (handleVote votes qid id dir ok).1 rid = some d1) ∧
    (stepState (stepState st (.selectResult item)) .back).grid
      = some ⟨emptyVotes⟩ := by
  constructor
  · unfold handleVote
    split
    · exact ⟨d0, hstored⟩
    · split
      · unfold setVote
        by_cases hr : rid = id
        · exact ⟨dir, by simp [hr]⟩
        · exact ⟨d0, by simp [hr, hstored]⟩
      · exact ⟨d0, hstored⟩
  · obtain ⟨h1, h2⟩ := hm
    simp [stepState, applyEvent, applyHandlers, reconcileGrid, gridMounted,
          h1, h2]

/-- C7 witness: the amended claim at concrete inputs — a ledger that
stores up for imgA keeps an entry for imgA after a vote on imgB, and
the concrete reachable state after c7trace loses its ledger on a
detail round-trip. -/
theorem c7_witness :
    (∃ d1, (handleVote (setVote emptyVotes "imgA" 1) none "imgB" (-1) true).1
      "imgA" = some d1) ∧
    (stepState (stepState (stateAfter c7trace) (.selectResult itemA)) .back).grid
      = some ⟨emptyVotes⟩ := by
  have h := c7_ledger_per_mount (setVote emptyVotes "imgA" 1) none "imgB" "imgA"
    (-1) 1 true (stateAfter c7trace) itemA (by simp [setVote]) (by decide)
  exact h

/- ---------------------------------------------------------------
   C9: New Search frame effect
   --------------------------------------------------------------- -/

/-- C9. handleNewSearch (App.jsx lines 84-90) resets the phase to idle
and clears the result set, the selection, the stored query file and
the text query, while the active filters are left untouched (setFilters
is not called), so filters chosen before a New Search still apply to
the next query. The grid field becomes none because the results grid
unmounts when the phase leaves results. -/
theorem c9_new_search_preserves_filters (st : AppState)
    (h : st.phase ≠ Phase.idle) :
    applyEvent st .newSearch =
      ({ st with phase := .idle, results := none, selectedResult := none
                 queryFile := none, textQuery := "", grid := none }, []) ∧
    (applyEvent st .newSearch).1.filters = st.filters := by
  unfold applyEvent applyHandlers
  simp [h, reconcileGrid, gridMounted]

/-- C9 witness at a concrete reachable state (mid-search). -/
theorem c9_witness :
    applyEvent (stateAfter [Event.dropFile (some fileA)]) Event.newSearch =
      ({ stateAfter [Event.dropFile (some fileA)] with
          phase := .idle, results := none, selectedResult := none
          queryFile := none, textQuery := "", grid := none }, []) ∧
    (applyEvent (stateAfter [Event.dropFile (some fileA)]) Event.newSearch).1.filters
      = (stateAfter [Event.dropFile (some fileA)]).filters :=
  c9_new_search_preserves_filters _ (by decide)

/- ---------------------------------------------------------------
   C2: vote decision table
   --------------------------------------------------------------- -/

/-- C2. handleVote submits a feedback network call iff the requested
direction differs from the stored one (including when nothing is
stored), and a successful submission stores the requested direction.
Consequently two equal votes in a row issue exactly one call, and up
followed by down issues two calls with the ledger ending in down. -/
theorem c2_vote_decision_table (votes : VoteMap) (qid : Option String)
    (id : String) (dir : Int) (netOk : Bool) :
    (countFeedback (handleVote votes qid id dir netOk).2
      = if votes id = some dir then 0 else 1) ∧
    (votes id = some dir → handleVote votes qid id dir netOk = (votes, [])) ∧
    (votes id ≠ some dir → netOk = true →
      (handleVote votes qid id dir netOk).1 id = some dir) ∧
    (runVotes emptyVotes qid [(id, dir, true), (id, dir, true)]).2 = 1 ∧
    (runVotes emptyVotes qid [(id, 1, true), (id, -1, true)]).2 = 2 ∧
    (runVotes emptyVotes qid [(id, 1, true), (id, -1, true)]).1 id
      = some (-1) := by
  refine ⟨?_, ?_, ?_, ?_, ?_, ?_⟩
  · by_cases h : votes id = some dir <;> cases netOk <;>
      simp [handleVote, countFeedback, isFeedbackCall, h]
  · intro h; simp [handleVote, h]
  · intro h hok; simp [handleVote, h, hok, setVote]
  · simp [runVotes, handleVote, emptyVotes, setVote, countFeedback,
          isFeedbackCall]
  · simp [runVotes, handleVote, emptyVotes, setVote, countFeedback,
          isFeedbackCall]
  · simp [runVotes, handleVote, emptyVotes, setVote]

/-- C2 witness at concrete inputs. -/
theorem c2_witness :
    countFeedback (handleVote emptyVotes none "imgA" 1 true).2 = 1 ∧
    (handleVote emptyVotes none "imgA" 1 true).1 "imgA" = some 1 ∧
    (runVotes emptyVotes none [("imgA", 1, true), ("imgA", 1, true)]).2 = 1 ∧
    (runVotes emptyVotes none [("imgA", 1, true), ("imgA", -1, true)]).2 = 2 ∧
    (runVotes emptyVotes none [("imgA", 1, true), ("imgA", -1, true)]).1 "imgA"
      = some (-1) := by
  have h := c2_vote_decision_table emptyVotes none "imgA" 1 true
  exact ⟨by simpa [emptyVotes] using h.1,
         h.2.2.1 (by simp [emptyVotes]) rfl,
         h.2.2.2.1, h.2.2.2.2.1, h.2.2.2.2.2⟩

/- ---------------------------------------------------------------
   C3: feedback failure handling
   --------------------------------------------------------------- -/

/-- C3 counterexample. The claim states that a failed vote submission
is surfaced as a notice near the affected item. At the concrete input
below (no stored vote, network call fails) the complete behaviour of
handleVote is: the feedback call, a console log, and an unchanged
votes map — and because the rendered grid is a function of the results
and the votes map, the rendered output after the failure is identical
to the output before the vote, so no notice of any kind appears in
the UI; the only surfacing is the developer-console log. -/
theorem c3_counterexample :
    handleVote emptyVotes none "imgA" 1 false
      = (emptyVotes,
         [.netFeedback ⟨none, "imgA", 1⟩,
          .consoleError "Failed to submit feedback:"]) ∧
    renderGrid (some [itemA]) (handleVote emptyVotes none "imgA" 1 false).1
      = renderGrid (some [itemA]) emptyVotes := by
  constructor
  · simp [handleVote, emptyVotes, jsOrNull, jsTruthyStr]
  · rfl

/-- C3 amended claim: on a failed vote submission the ledger entry
keeps its pre-call value (the store is only written after a successful
call), the rejection is caught rather than propagated — the catch
branch only logs to the developer console — and the rendered grid is
unchanged, i.e. no notice is rendered near the affected item. -/
theorem c3_failure_semantics (votes : VoteMap) (qid : Option String)
    (id : String) (dir : Int) (rs : Option (List ResultItem)) :
    (handleVote votes qid id dir false).1 = votes ∧
    (handleVote votes qid id dir false).2
      = (if votes id = some dir then []
         else [.netFeedback ⟨jsOrNull qid, id, dir⟩,
               .consoleError "Failed to submit feedback:"]) ∧
    renderGrid rs (handleVote votes qid id dir false).1
      = renderGrid rs votes := by
  have h1 : (handleVote votes qid id dir false).1 = votes := by
    unfold handleVote
    split
    · rfl
    · simp
  refine ⟨h1, ?_, by rw [h1]⟩
  by_cases h : votes id = some dir <;> simp [handleVote, h]

/- ---------------------------------------------------------------
   C4: image MIME validation
   --------------------------------------------------------------- -/

/-- C4. A dropped file whose MIME type is outside the accepted set
{image/jpeg, image/png, image/tiff} is rejected by DropZone.handleFile
with the validation alert, the event issues no network effect at all,
and the lifecycle phase is unchanged: the query never reaches the
transport layer (client.js is not invoked). -/
theorem c4_mime_validation (st : AppState) (f : File)
    (hbad : ACCEPTED_TYPES.contains f.type = false) :
    handleFile (some f) = .rejected "Please use a JPEG, PNG, or TIFF image." ∧
    (applyEvent st (.dropFile (some f))).2.filter isNetworkEffect = [] ∧
    (applyEvent st (.dropFile (some f))).1.phase = st.phase := by
  have hmem : f.type ∉ ACCEPTED_TYPES := by simpa using hbad
  have hf : handleFile (some f)
      = .rejected "Please use a JPEG, PNG, or TIFF image." := by
    simp [handleFile, hmem]
  refine ⟨hf, ?_, ?_⟩
  · unfold applyEvent applyHandlers
    by_cases hp : st.phase = Phase.idle <;> simp [hp, hf, isNetworkEffect]
  · unfold applyEvent applyHandlers
    by_cases hp : st.phase = Phase.idle <;>
      simp [hp, hf, reconcileGrid_phase]

/-- C4 witness: a PDF dropped on the initial state. -/
theorem c4_witness :
    handleFile (some pdfFile)
      = .rejected "Please use a JPEG, PNG, or TIFF image." ∧
    (applyEvent initState (.dropFile (some pdfFile))).2.filter isNetworkEffect
      = [] ∧
    (applyEvent initState (.dropFile (some pdfFile))).1.phase
      = initState.phase :=
  c4_mime_validation initState pdfFile (by decide)

/- ---------------------------------------------------------------
   C5: filter stripping
   --------------------------------------------------------------- -/

theorem jsTruthyStr_getD {o : Option String} (h : jsTruthyStr o = true) :
    o.getD "" ≠ "" := by
  cases o with
  | none => simp [jsTruthyStr] at h
  | some s => simp [jsTruthyStr] at h; simpa using h

theorem jsTruthyStr_ne_empty {o : Option String} (h : jsTruthyStr o = true) :
    o ≠ some "" := by
  cases o <;> simp_all [jsTruthyStr]

theorem mem_truthy_entry {kv : String × String} {name : String}
    {o : Option String}
    (hm : kv ∈ (if jsTruthyStr o then [(name, o.getD "")] else [])) :
    kv.2 ≠ "" := by
  rcases h : jsTruthyStr o with _ | _
  · rw [h] at hm
    simp at hm
  · rw [h] at hm
    simp only [if_true, List.mem_singleton] at hm
    rw [hm]
    exact jsTruthyStr_getD h

theorem truthy_field_ne_some_empty (o : Option String) :
    (if jsTruthyStr o then o else none) ≠ some "" := by
  rcases h : jsTruthyStr o with _ | _
  · simp [h]
  · simpa [h] using jsTruthyStr_ne_empty h

/-- C5. Filter entries whose value is absent or empty are stripped
before a request is built: the image-search query parameters and the
text-search JSON body never contain an empty-string filter value, and
the concrete FilterSet with empty diagnosis plus tissue_type melanoma
yields exactly the tissue_type parameter. -/
theorem c5_filter_strip :
    searchSimilarParams ⟨some "", some "melanoma", none⟩
      = [("tissue_type", "melanoma")] ∧
    (∀ (f : FilterSet) (kv : String × String),
      kv ∈ searchSimilarParams f → kv.2 ≠ "") ∧
    (∀ (q : String) (f : FilterSet),
      (searchByTextBody q f).diagnosis ≠ some "" ∧
      (searchByTextBody q f).tissue_type ≠ some "" ∧
      (searchByTextBody q f).benign_malignant ≠ some "") := by
  refine ⟨by simp [searchSimilarParams, jsTruthyStr], ?_, ?_⟩
  · intro f kv hm
    unfold searchSimilarParams at hm
    simp only [List.mem_append] at hm
    rcases hm with (hm | hm) | hm
    · exact mem_truthy_entry hm
    · exact mem_truthy_entry hm
    · exact mem_truthy_entry hm
  · intro q f
    exact ⟨truthy_field_ne_some_empty _, truthy_field_ne_some_empty _,
           truthy_field_ne_some_empty _⟩

/-- C5 witness at concrete inputs. -/
theorem c5_witness :
    ("tissue_type", ("melanoma" : String)).2 ≠ "" ∧
    (searchByTextBody "lesion" ⟨some "", some "melanoma", none⟩).diagnosis
      ≠ some "" := by
  refine ⟨c5_filter_strip.2.1 ⟨some "", some "melanoma", none⟩ _ ?_,
          (c5_filter_strip.2.2 "lesion" ⟨some "", some "melanoma", none⟩).1⟩
  rw [c5_filter_strip.1]
  exact List.mem_singleton.mpr rfl

/- ---------------------------------------------------------------
   C6: filter-change replay
   --------------------------------------------------------------- -/

/-- State after an image search submitted with no filters resolved. -/
def imageResultsState : AppState :=
  stateAfter [.dropFile (some fileA), .resolveOk respA]

/-- State after a text search resolved. -/
def textResultsState : AppState :=
  stateAfter [.setTextQuery "irregular border", .submitTextForm,
              .resolveOk respA]

def melanomaFilters : FilterSet := ⟨none, some "melanoma", none⟩

/-- C6. Filter-change behaviour evaluated on the code. The asymmetry
holds: after an image query (queryFile stored) a filter change
re-enters Searching and issues a new image request with the same file,
while after a text query (queryFile was set to null) it issues no
network call and leaves the Results state, only updating the stored
filters. But the replayed request carries noFilters — the pre-change
filters captured by the handleSearch closure of the current render —
and not the updated melanomaFilters that the claim (and the spec
comment in handleFilterChange) intends: setFilters(newFilters) cannot
affect the filters value already closed over by the handleSearch that
handleFilterChange invokes in the same event (App.jsx lines 92-101
with lines 34-51). -/
theorem c6_filter_change_replay :
    (applyEvent imageResultsState (.filterChange melanomaFilters)).2
      = [.netSearchImage fileA noFilters] ∧
    (applyEvent imageResultsState (.filterChange melanomaFilters)).1.filters
      = melanomaFilters ∧
    (applyEvent imageResultsState (.filterChange melanomaFilters)).1.phase
      = Phase.searching ∧
    noFilters ≠ melanomaFilters ∧
    (applyEvent textResultsState (.filterChange melanomaFilters)).2 = [] ∧
    (applyEvent textResultsState (.filterChange melanomaFilters)).1.phase
      = Phase.results ∧
    (applyEvent textResultsState (.filterChange melanomaFilters)).1.results
      = textResultsState.results := by
  refine ⟨by decide, by decide, by decide, by decide, by decide, by decide,
          by decide⟩

/- ---------------------------------------------------------------
   C8: health check is best effort
   --------------------------------------------------------------- -/

/-- C8. Any failing health request (rejected fetch, non-ok HTTP
status, or unparseable body) ends as health = unreachable: checkHealth
throws in those cases and the catch in the App mount effect maps every
rejection to that value, so no exception escapes. Moreover the stored
health value has no effect on query submission: the image-drop and
text-submit events produce the same network effects, the same phase
and the same results regardless of the health field. -/
theorem c8_health_best_effort (fr : FetchOutcome) (st : AppState)
    (h : Option HealthStatus) (f : Option File)
    (hfail : fr.failing = true) :
    healthOnMount fr = { status := "unreachable" } ∧
    (applyEvent { st with health := h } (.dropFile f)).2
      = (applyEvent st (.dropFile f)).2 ∧
    (applyEvent { st with health := h } (.dropFile f)).1.phase
      = (applyEvent st (.dropFile f)).1.phase ∧
    (applyEvent { st with health := h } (.dropFile f)).1.results
      = (applyEvent st (.dropFile f)).1.results ∧
    (applyEvent { st with health := h } .submitTextForm).2
      = (applyEvent st .submitTextForm).2 ∧
    (applyEvent { st with health := h } .submitTextForm).1.phase
      = (applyEvent st .submitTextForm).1.phase ∧
    (applyEvent { st with health := h } .submitTextForm).1.results
      = (applyEvent st .submitTextForm).1.results := by
  refine ⟨?_, ?_, ?_, ?_, ?_, ?_, ?_⟩
  · cases fr with
    | netError m => rfl
    | response ok status body =>
      cases ok <;> cases body <;>
        simp_all [FetchOutcome.failing, healthOnMount, checkHealth]
  all_goals
    simp only [applyEvent, reconcileGrid_phase, reconcileGrid_results]
  all_goals
    unfold applyHandlers
  · by_cases hp : st.phase = Phase.idle
    · rcases hfile : handleFile f with _ | msg | okfile <;>
        simp [hp, hfile, handleSearchStart]
    · simp [hp]
  · by_cases hp : st.phase = Phase.idle
    · rcases hfile : handleFile f with _ | msg | okfile <;>
        simp [hp, hfile, handleSearchStart]
    · simp [hp]
  · by_cases hp : st.phase = Phase.idle
    · rcases hfile : handleFile f with _ | msg | okfile <;>
        simp [hp, hfile, handleSearchStart]
    · simp [hp]
  · by_cases hp : st.phase = Phase.idle
    · by_cases ht : jsTrim st.textQuery = "" <;> simp [hp, ht]
    · simp [hp]
  · by_cases hp : st.phase = Phase.idle
    · by_cases ht : jsTrim st.textQuery = "" <;> simp [hp, ht]
    · simp [hp]
  · by_cases hp : st.phase = Phase.idle
    · by_cases ht : jsTrim st.textQuery = "" <;> simp [hp, ht]
    · simp [hp]

/-- C8 witness: a 500 response settles as unreachable, and a concrete
image drop behaves identically with and without a stored health. -/
theorem c8_witness :
    healthOnMount (.response false 500 none) = { status := "unreachable" } ∧
    (applyEvent { initState with health := some ⟨"unreachable"⟩ }
        (.dropFile (some fileA))).2
      = (applyEvent initState (.dropFile (some fileA))).2 := by
  have h := c8_health_best_effort (.response false 500 none) initState
    (some ⟨"unreachable"⟩) (some fileA) (by decide)
  exact ⟨h.1, h.2.1⟩

/- ---------------------------------------------------------------
   C10: feedback query_image_id
   --------------------------------------------------------------- -/

/-- C10. App.jsx renders ResultsGrid without a queryImageId prop, so
inside the grid that prop is undefined and handleVote always calls
submitFeedback(queryImageId || null, ...) with null: every feedback
request body produced by any event on any state carries
query_image_id = none, regardless of which query produced the
results. -/
theorem c10_feedback_null_qid (st : AppState) (e : Event) (b : FeedbackBody)
    (hmem : Effect.netFeedback b ∈ (applyEvent st e).2) :
    b.query_image_id = none := by
  have hmem2 : Effect.netFeedback b ∈ (applyHandlers st e).2 := hmem
  clear hmem
  cases e with
  | dropFile f =>
    by_cases hp : st.phase = Phase.idle
    · rcases hfile : handleFile f with _ | msg | okfile <;>
        simp [applyHandlers, hp, hfile, handleSearchStart] at hmem2
    · simp [applyHandlers, hp] at hmem2
  | setTextQuery s =>
    by_cases hp : st.phase = Phase.idle <;> simp [applyHandlers, hp] at hmem2
  | submitTextForm =>
    by_cases hp : st.phase = Phase.idle ∧ jsTrim st.textQuery ≠ "" <;>
      simp [applyHandlers, hp] at hmem2
  | resolveOk r => simp [applyHandlers] at hmem2
  | resolveErr m => simp [applyHandlers] at hmem2
  | selectResult item =>
    by_cases hm : gridMounted st <;> simp [applyHandlers, hm] at hmem2
  | back =>
    by_cases hp : st.phase = Phase.detail <;> simp [applyHandlers, hp] at hmem2
  | newSearch =>
    by_cases hp : st.phase = Phase.idle <;> simp [applyHandlers, hp] at hmem2
  | filterChange nf =>
    by_cases hp : st.phase = Phase.results ∨ st.phase = Phase.detail
    · rcases hq : st.queryFile with _ | qf <;>
        simp [applyHandlers, handleFilterChange, handleSearchStart, hp, hq]
          at hmem2
    · simp [applyHandlers, hp] at hmem2
  | vote id dir ok =>
    rcases hg : st.grid with _ | g
    · simp [applyHandlers, hg] at hmem2
    · by_cases hm : gridMounted st
      · simp only [applyHandlers, hg, hm, if_true] at hmem2
        unfold handleVote at hmem2
        split at hmem2
        · simp at hmem2
        · split at hmem2 <;>
            simp [appGridQueryImageId, jsOrNull, jsTruthyStr] at hmem2 <;>
            simp [hmem2]
      · simp [applyHandlers, hg, hm] at hmem2
  | healthResolved fr => simp [applyHandlers] at hmem2
  | dismissError => simp [applyHandlers] at hmem2

/-- C10 witness: a concrete vote on a result of an image query emits a
feedback call whose body has a null query_image_id. -/
theorem c10_witness :
    Effect.netFeedback ⟨none, "imgA", 1⟩
      ∈ (applyEvent (stateAfter [.dropFile (some fileA), .resolveOk respA])
          (.vote "imgA" 1 true)).2 ∧
    (⟨none, "imgA", 1⟩ : FeedbackBody).query_image_id = none := by
  refine ⟨by decide, ?_⟩
  exact c10_feedback_null_qid
    (stateAfter [.dropFile (some fileA), .resolveOk respA])
    (.vote "imgA" 1 true) ⟨none, "imgA", 1⟩ (by decide)

end MedMicro
